import Mathlib

/-!
Verification development for the idiom-master repository.

The definitions below are a shallow embedding of the client-side session
orchestrator (src/App.tsx), the audio decode pipeline (src/App.tsx,
decodeAudioData), the search-result validation (src/services/geminiService.ts,
performIdiomSearch) and the second app variant's random-item selection
(src/unnamed/part_000, fetchNewItem).

Asynchronous handlers are split at their await points into atomic step
functions on an explicit state record; each step also returns the list of
external calls (gateway fetches, backend writes, audio stops) it issues.
JavaScript `undefined` flowing through a string-typed position is modelled
as `Option String` with `none` for `undefined`.
-/

namespace FiguroAI

/-- AppState enum from src/types.ts. -/
inductive AppState
  | IDLE
  | LOADING
  | SUCCESS
  | ERROR
deriving DecidableEq

/-- IdiomInfo from src/types.ts: meaning, history, examples. -/
structure IdiomInfo where
  meaning : String
  history : String
  examples : List String
deriving DecidableEq

/-- Language is a plain string tag (src/types.ts). -/
abbrev Language := String

/-- Favorite as constructed in src/App.tsx handleToggleFavorite:
idiom, language, info, optional audioData (base64 or S3 URL), savedAt. -/
structure Favorite where
  idiom : String
  language : Language
  info : IdiomInfo
  audioData : Option String
  savedAt : Nat
deriving DecidableEq

/-- ViewMode enum from src/types.ts. -/
inductive ViewMode
  | ALL
  | FAVORITES
deriving DecidableEq

/-- SearchResult from src/types.ts. -/
structure SearchResult where
  idiom : String
  language : Language
deriving DecidableEq

/-- CrossLanguageIdioms: map from language tag to equivalent phrase,
modelled as an association list (src/types.ts Partial Record). -/
abbrev CrossLanguageIdioms := List (Language × String)

/-- AppConfig from src/App.tsx: languages record mapping each language
to its idiom list, modelled as an association list. -/
abbrev AppConfig := List (Language × List String)

/-- External calls issued by the orchestrator's handlers. `primaryFetch`
is getIdiomInfo, `crossFetch` is getCrossLanguageIdioms, `ttsFetch` is
getTextToSpeech, `backendSave` and `backendDelete` are the favorites API
calls, `audioStop` is AudioBufferSourceNode.stop on the held source.
An `Option String` idiom argument records that the JS string parameter
may hold `undefined` (modelled as `none`). -/
inductive Action
  | audioStop (src : Nat)
  | primaryFetch (idiom : Option String) (lang : Language)
  | crossFetch (idiom : Option String) (lang : Language)
  | ttsFetch (text : String)
  | backendSave (user : String) (idiom : String) (lang : Language)
  | backendDelete (user : String) (idiom : String) (lang : Language)
deriving DecidableEq

/-- Boolean recogniser for cross-language gateway calls. -/
def Action.isCrossFetch : Action → Bool
  | .crossFetch _ _ => true
  | _ => false

/-- The React state of src/App.tsx App, one field per useState hook
(plus the two refs that carry cross-render state). -/
structure AppSt where
  config : Option AppConfig
  appState : AppState
  language : Language
  currentIdiom : Option String
  idiomInfo : Option IdiomInfo
  errorMessage : Option String
  isAudioLoading : Bool
  isAudioPlaying : Bool
  audioSource : Option Nat
  searchQuery : String
  searchResults : List SearchResult
  isSearching : Bool
  isSearchLoading : Bool
  favorites : List Favorite
  viewMode : ViewMode
  currentFavoriteIndex : Nat
  toastMessage : Option String
  currentUser : Option String
  isBackendAvailable : Bool
  isShowingRelated : Bool
  relatedIdioms : Option (List String)
  relatedError : Option String
  isRelatedLoading : Bool
  originalIdiom : Option (String × Language)
  crossLanguageIdioms : Option CrossLanguageIdioms
  isCrossLangLoading : Bool
deriving DecidableEq

/-- Initial hook values of src/App.tsx App (config not yet loaded). -/
def initialState : AppSt :=
  { config := none
    appState := AppState.IDLE
    language := ""
    currentIdiom := none
    idiomInfo := none
    errorMessage := none
    isAudioLoading := false
    isAudioPlaying := false
    audioSource := none
    searchQuery := ""
    searchResults := []
    isSearching := false
    isSearchLoading := false
    favorites := []
    viewMode := ViewMode.ALL
    currentFavoriteIndex := 0
    toastMessage := none
    currentUser := none
    isBackendAvailable := false
    isShowingRelated := false
    relatedIdioms := none
    relatedError := none
    isRelatedLoading := false
    originalIdiom := none
    crossLanguageIdioms := none
    isCrossLangLoading := false }

/-- resetRelatedState from src/App.tsx. -/
def resetRelatedState (s : AppSt) : AppSt :=
  { s with
    isShowingRelated := false
    relatedIdioms := none
    relatedError := none
    originalIdiom := none }

/-- Synchronous prologue of fetchIdiomDetails (src/App.tsx lines 319-333):
guard on config, stop any held audio source (the ref and the playing flag
are left untouched here; only the ended event will clear them), reset the
related view, enter LOADING, clear info/error/cross-language state, record
the new idiom and language, and issue the getIdiomInfo call.  There is no
request token: nothing ties the issued call to the state it will later
mutate. -/
def startFetch (idiom : Option String) (lang : Language) (s : AppSt) :
    AppSt × List Action :=
  match s.config with
  | none => (s, [])
  | some _ =>
    let stopActs : List Action :=
      match s.audioSource with
      | some src => [Action.audioStop src]
      | none => []
    let s1 := resetRelatedState s
    ({ s1 with
        appState := AppState.LOADING
        idiomInfo := none
        errorMessage := none
        currentIdiom := idiom
        language := lang
        crossLanguageIdioms := none },
     stopActs ++ [Action.primaryFetch idiom lang])

/-- Continuation of fetchIdiomDetails after getIdiomInfo resolves
successfully (src/App.tsx lines 334-341): store the info, enter SUCCESS,
raise the cross-language loading flag and issue the background
getCrossLanguageIdioms call.  `idiom` and `lang` are the closure's own
parameters, not the current state's fields; the state updates are applied
unconditionally, with no staleness comparison. -/
def resolvePrimarySuccess (idiom : Option String) (lang : Language)
    (info : IdiomInfo) (s : AppSt) : AppSt × List Action :=
  ({ s with
      idiomInfo := some info
      appState := AppState.SUCCESS
      isCrossLangLoading := true },
   [Action.crossFetch idiom lang])

/-- Continuation of fetchIdiomDetails when getIdiomInfo rejects
(src/App.tsx lines 350-356). -/
def resolvePrimaryFailure (msg : String) (s : AppSt) : AppSt :=
  { s with errorMessage := some msg, appState := AppState.ERROR }

/-- Continuation when getCrossLanguageIdioms resolves (src/App.tsx
lines 341-342 and the finally block). -/
def resolveCrossSuccess (m : CrossLanguageIdioms) (s : AppSt) : AppSt :=
  { s with crossLanguageIdioms := some m, isCrossLangLoading := false }

/-- Continuation when getCrossLanguageIdioms rejects (src/App.tsx
lines 343-348): the error is swallowed, the map degrades to the empty
object, the loading flag drops; appState and errorMessage are untouched. -/
def resolveCrossFailure (s : AppSt) : AppSt :=
  { s with crossLanguageIdioms := some [], isCrossLangLoading := false }

/-- fetchNewIdiom from src/App.tsx lines 359-367.  `r` models the
Math.random draw (index r % length when the slice is non-empty; JS
computes index 0 on an empty slice and reads `undefined` from it).
Returns `none` for the uncaught TypeError raised when the language key is
absent from the config record.  Note there is no empty-slice guard: on an
empty slice fetchIdiomDetails is called with an `undefined` idiom. -/
def fetchNewIdiom (r : Nat) (lang : Language) (s : AppSt) :
    Option (AppSt × List Action) :=
  match s.config with
  | none => some (s, [])
  | some cfg =>
    match cfg.lookup lang with
    | none => none
    | some langIdioms =>
      let s1 := { s with isSearching := false, searchQuery := "", searchResults := [] }
      let idx := if langIdioms.length = 0 then 0 else r % langIdioms.length
      let newIdiom := langIdioms.get? idx
      some (startFetch newIdiom lang s1)

/-- The capacity toast from src/App.tsx line 539. -/
def capacityToast : String :=
  "⚠️ Maximum 50 favorites reached. Remove some to add new ones."

/-- handleToggleFavorite from src/App.tsx lines 515-612, written as one
function of the resolved values of its awaited calls: `audioRes` is the
result of getTextToSpeech (`none` when it threw), `backendRes` the
audioUrl returned by saveFavoriteToBackend (`none` when it threw), `now`
the Date.now timestamp.  Returns the new state and the external calls
issued.  The capacity branch returns before any of those calls. -/
def handleToggleFavorite (audioRes backendRes : Option String) (now : Nat)
    (s : AppSt) : AppSt × List Action :=
  match s.currentIdiom, s.idiomInfo with
  | some cur, some info =>
    let isFav := s.favorites.any (fun f => f.idiom == cur && f.language == s.language)
    if isFav then
      let delActs : List Action :=
        if s.isBackendAvailable then
          match s.currentUser with
          | some u => [Action.backendDelete u cur s.language]
          | none => []
        else []
      let updated := s.favorites.filter
        (fun f => !(f.idiom == cur && f.language == s.language))
      let s1 := { s with favorites := updated, toastMessage := some "Removed from favorites" }
      let s2 :=
        if s.viewMode = ViewMode.FAVORITES ∧ updated.length = 0 then
          { s1 with viewMode := ViewMode.ALL }
        else s1
      (s2, delActs)
    else if s.favorites.length ≥ 50 then
      ({ s with toastMessage := some capacityToast }, [])
    else
      -- the try block at lines 545-606; getTextToSpeech failure is caught
      -- and leaves audioData undefined, so the outer catch is unreachable
      -- in this model
      let ttsText := cur ++ ". As in: " ++ info.examples.getD 0 "undefined"
      let ttsActs := [Action.ttsFetch ttsText]
      if s.isBackendAvailable ∧ s.currentUser.isSome then
        match s.currentUser with
        | some u =>
          match backendRes with
          | some url =>
            let newFav : Favorite :=
              { idiom := cur, language := s.language, info := info
                audioData := some url, savedAt := now }
            let updated := (newFav :: s.favorites).take 50
            ({ s with favorites := updated
                      toastMessage := some ("✨ Saved to cloud! (" ++ toString updated.length
                        ++ "/50) Synced across devices 🌐") },
             ttsActs ++ [Action.backendSave u cur s.language])
          | none =>
            let newFav : Favorite :=
              { idiom := cur, language := s.language, info := info
                audioData := audioRes, savedAt := now }
            let updated := (newFav :: s.favorites).take 50
            ({ s with favorites := updated
                      toastMessage := some ("✨ Saved locally! (" ++ toString updated.length
                        ++ "/50) Local only.") },
             ttsActs ++ [Action.backendSave u cur s.language])
        | none => (s, ttsActs)
      else
        let newFav : Favorite :=
          { idiom := cur, language := s.language, info := info
            audioData := audioRes, savedAt := now }
        let updated := (newFav :: s.favorites).take 50
        ({ s with favorites := updated
                  toastMessage := some ("✨ Saved locally! (" ++ toString updated.length
                    ++ "/50)") },
         ttsActs)
  | _, _ => (s, [])

/-- The durable local storage, keyed by string; values are the favorites
lists (modelling the JSON payload localStorage holds after parsing). -/
abbrev LocalStore := List (String × List Favorite)

/-- The per-user storage key from src/App.tsx line 222. -/
def storageKey (u : String) : String := "idiomFavorites_" ++ u

/-- localStorage.setItem on the store model. -/
def storeWrite (store : LocalStore) (key : String) (val : List Favorite) :
    LocalStore :=
  (key, val) :: store.filter (fun kv => !(kv.1 == key))

/-- localStorage.getItem on the store model. -/
def storeGet (store : LocalStore) (key : String) : Option (List Favorite) :=
  store.lookup key

/-- The favorites persistence effect from src/App.tsx lines 212-243:
no write when not logged in, no write when the in-memory list is empty,
otherwise serialize the list under the per-user key. -/
def persistFavoritesEffect (s : AppSt) (store : LocalStore) : LocalStore :=
  match s.currentUser with
  | none => store
  | some u =>
    if s.favorites.length = 0 then store
    else storeWrite store (storageKey u) s.favorites

/-- The audio playback slice of src/App.tsx: the isAudioPlaying flag, the
audioSourceRef, and the set of started sources whose Web Audio `ended`
event has not fired yet.  Per the Web Audio API an
AudioBufferSourceNode fires `ended` both on natural completion and after
an explicit stop() call, so stop() leaves the source in `pendingEnded`. -/
structure AudioSt where
  isAudioPlaying : Bool
  audioSource : Option Nat
  pendingEnded : List Nat
deriving DecidableEq

/-- Initial audio state (nothing held, nothing playing). -/
def audioInit : AudioSt :=
  { isAudioPlaying := false, audioSource := none, pendingEnded := [] }

/-- The success tail of handleToggleAudio (src/App.tsx lines 488-505):
a fresh source with the shared onended handler is stored in the ref and
started. -/
def startPlayback (src : Nat) (s : AudioSt) : AudioSt :=
  { s with
    audioSource := some src
    isAudioPlaying := true
    pendingEnded := s.pendingEnded ++ [src] }

/-- The stop branch of handleToggleAudio (src/App.tsx lines 436-440):
stop() the held source and drop the playing flag.  The ref is not
cleared and the onended handler is not detached, so the source's ended
event remains pending. -/
def stopClick (s : AudioSt) : AudioSt :=
  if s.isAudioPlaying ∧ s.audioSource.isSome then
    { s with isAudioPlaying := false }
  else s

/-- Delivery of a pending `ended` event: the onended handler installed at
src/App.tsx lines 494-498 runs, unconditionally dropping the playing flag
and nulling the ref, exactly as for natural completion.  Returns `none`
when the source has no pending event (ended fires once per source). -/
def endedFires (src : Nat) (s : AudioSt) : Option AudioSt :=
  if src ∈ s.pendingEnded then
    some { isAudioPlaying := false
           audioSource := none
           pendingEnded := s.pendingEnded.erase src }
  else none

/-- Little-endian signed 16-bit value from two bytes (the Int16Array view
taken at src/App.tsx line 38). -/
def int16OfLE (lo hi : Nat) : Int :=
  let v := lo % 256 + 256 * (hi % 256)
  if v < 32768 then (v : Int) else (v : Int) - 65536

/-- The Int16Array reinterpretation of a byte buffer (consumes bytes in
little-endian pairs; a trailing odd byte never occurs on the success
path because the constructor throws first). -/
def bytesToInt16 : List Nat → List Int
  | lo :: hi :: rest => int16OfLE lo hi :: bytesToInt16 rest
  | _ => []

/-- The AudioBuffer produced by ctx.createBuffer and filled by
decodeAudioData; samples are exact rationals (each written sample is an
int16 divided by 32768, which float32 represents exactly). -/
structure PCMBuffer where
  numberOfChannels : Nat
  frameCount : Nat
  sampleRate : Nat
  channels : List (List ℚ)
deriving DecidableEq

/-- Sample read accessor: channel data then frame index, 0 outside. -/
def PCMBuffer.sampleAt (b : PCMBuffer) (channel i : Nat) : ℚ :=
  (b.channels.getD channel []).getD i 0

/-- Failures decodeAudioData can raise: the RangeError thrown by
`new Int16Array(buffer)` on an odd byte length, and the
NotSupportedError thrown by ctx.createBuffer when any argument is zero,
negative or outside its nominal range.  Note there is no ChannelMismatch
constructor: the function performs no divisibility check against
channelCount. -/
inductive AudioDecodeError
  | int16AlignmentError
  | createBufferError
deriving DecidableEq

/-- decodeAudioData from src/App.tsx lines 32-49.  frameCount is
dataInt16.length / numChannels; JS passes the possibly fractional
quotient to createBuffer, whose unsigned-long coercion truncates it, and
the fill loop's writes at indices at or beyond the truncated length are
silently dropped by the Float32Array, so the net effect is the floor
quotient used here.  createBuffer throws NotSupportedError when an
argument falls outside its nominal range, modelled with the
spec-guaranteed Web Audio ranges: channel count 1 to 32, frame length at
least 1, sample rate 8000 to 96000 Hz.  Each stored sample is
dataInt16[i * numChannels + channel] / 32768. -/
def decodeAudioData (data : List Nat) (sampleRate numChannels : Nat) :
    Except AudioDecodeError PCMBuffer :=
  if data.length % 2 ≠ 0 then .error .int16AlignmentError
  else
    let dataInt16 := bytesToInt16 data
    let frameCount := dataInt16.length / numChannels
    if numChannels = 0 ∨ 32 < numChannels ∨ frameCount = 0 ∨
        sampleRate < 8000 ∨ 96000 < sampleRate then .error .createBufferError
    else
      .ok { numberOfChannels := numChannels
            frameCount := frameCount
            sampleRate := sampleRate
            channels := (List.range numChannels).map (fun channel =>
              (List.range frameCount).map (fun i =>
                ((dataInt16.getD (i * numChannels + channel) 0 : Int) : ℚ) / 32768)) }

/-- Boolean success recogniser for Except. -/
def isOkE {ε α : Type _} : Except ε α → Bool
  | .ok _ => true
  | .error _ => false

/-- One entry of the untrusted `matches` array parsed from the gateway's
search response (src/services/geminiService.ts line 237); `none` in a
field models a value that is not a string. -/
structure RawSearchMatch where
  idiom : Option String
  language : Option String
deriving DecidableEq

/-- The defensive predicate of the filter at
src/services/geminiService.ts lines 240-245: both fields are strings and
the language is in the valid set. -/
def matchIsValid (valid : List Language) (m : RawSearchMatch) : Bool :=
  m.idiom.isSome &&
    (match m.language with
     | some l => valid.contains l
     | none => false)

/-- The result filtering of performIdiomSearch
(src/services/geminiService.ts lines 240-246): List.filter keeps the
gateway's order and returns the original match objects. -/
def performIdiomSearchFilter (ms : List RawSearchMatch)
    (valid : List Language) : List RawSearchMatch :=
  ms.filter (matchIsValid valid)

/-- Membership-only predicate: the language field is a string contained
in the configured language set. -/
def languageSupported (valid : List Language) (m : RawSearchMatch) : Bool :=
  match m.language with
  | some l => valid.contains l
  | none => false

/-- LearningMode from src/unnamed/part_000 ('idioms' or 'words'). -/
inductive LMode
  | idioms
  | words
deriving DecidableEq

/-- The string the template literal interpolates for a LearningMode. -/
def LMode.str : LMode → String
  | .idioms => "idioms"
  | .words => "words"

/-- View mode of src/unnamed/part_000 ('All' or 'Favorites'). -/
inductive P0ViewMode
  | All
  | Favorites
deriving DecidableEq

/-- Favorite of src/unnamed/part_000: key, phrase, language, type. -/
structure P0Fav where
  key : String
  phrase : String
  language : String
  type : LMode
deriving DecidableEq

/-- ItemInfo of src/unnamed/part_000. -/
structure ItemInfo where
  item : String
  meaning : String
  history : String
  examples : List String
deriving DecidableEq

/-- App state of src/unnamed/part_000. -/
inductive P0AppState
  | loading
  | idle
  | error
deriving DecidableEq

/-- External calls issued by src/unnamed/part_000 handlers. -/
inductive P0Action
  | getItemInfoFetch (phrase : String) (lang : String) (type : LMode)
  | audioStopAct (src : Nat)
deriving DecidableEq

/-- The hook state of src/unnamed/part_000 App used by fetchNewItem and
fetchItemDetails. -/
structure P0St where
  appState : P0AppState
  error : Option String
  languageConfig : List (String × (List String × List String))
  learningMode : LMode
  currentItem : Option ItemInfo
  currentLanguage : String
  currentPhrase : String
  favorites : List P0Fav
  viewMode : P0ViewMode
  relatedItems : Option (List String)
  crossLanguageItems : Option (List (String × String))
  isPlaying : Bool
  audioSource : Option Nat
deriving DecidableEq

/-- getRandomItem from src/unnamed/part_000 lines 37-40: undefined on an
empty array, otherwise a uniformly drawn element (r models the draw). -/
def getRandomItem {α : Type _} (r : Nat) (l : List α) : Option α :=
  if l.length = 0 then none else l.get? (r % l.length)

/-- stopAudio from src/unnamed/part_000 lines 283-289. -/
def p0StopAudio (s : P0St) : P0St × List P0Action :=
  match s.audioSource with
  | some src =>
    ({ s with audioSource := none, isPlaying := false }, [P0Action.audioStopAct src])
  | none => (s, [])

/-- Synchronous prologue of fetchItemDetails from src/unnamed/part_000
lines 130-141: enter loading, clear item/error/related/cross state,
record phrase and language, stop audio, and issue getItemInfo. -/
def p0FetchItemDetails (phrase lang : String) (t : LMode) (s : P0St) :
    P0St × List P0Action :=
  let s1 :=
    { s with
      appState := P0AppState.loading
      currentItem := none
      error := none
      currentPhrase := phrase
      currentLanguage := lang
      relatedItems := none
      crossLanguageItems := none }
  let (s2, acts) := p0StopAudio s1
  (s2, acts ++ [P0Action.getItemInfoFetch phrase lang t])

/-- The catalog slice `languageConfig[lang]?.[modeKey] ?? []` from
src/unnamed/part_000 lines 180-181. -/
def p0SliceFor (s : P0St) (lang : String) : List String :=
  match s.languageConfig.lookup lang with
  | some p =>
    match s.learningMode with
    | LMode.idioms => p.1
    | LMode.words => p.2
  | none => []

/-- fetchNewItem from src/unnamed/part_000 lines 167-192: in Favorites
view with matching favorites, drill into a random favorite; otherwise
take the catalog slice for the current language and mode, guard on
emptiness (set the error message, issue nothing), else fetch a random
phrase.  `r1` and `r2` model the two Math.random draws. -/
def fetchNewItem (r1 r2 : Nat) (s : P0St) : P0St × List P0Action :=
  let favBranch : Option (P0St × List P0Action) :=
    if s.viewMode = P0ViewMode.Favorites ∧ s.favorites.length > 0 then
      match getRandomItem r1 (s.favorites.filter (fun f => f.type == s.learningMode)) with
      | some f => some (p0FetchItemDetails f.phrase f.language f.type s)
      | none => none
    else none
  match favBranch with
  | some res => res
  | none =>
    let list := p0SliceFor s s.currentLanguage
    if list.length = 0 then
      ({ s with error := some ("No " ++ s.learningMode.str ++ " available for "
          ++ s.currentLanguage ++ ".") }, [])
    else
      match getRandomItem r2 list with
      | some phrase => p0FetchItemDetails phrase s.currentLanguage s.learningMode s
      | none => (s, [])

/-- A small IdiomInfo value used by concrete instantiations. -/
def sampleInfo : IdiomInfo := { meaning := "m", history := "h", examples := ["e"] }

/-- Detail payload for item A in the overlapping-fetch scenario. -/
def infoAlpha : IdiomInfo :=
  { meaning := "meaning A", history := "history A", examples := ["example A"] }

/-- Detail payload for item B in the overlapping-fetch scenario. -/
def infoBeta : IdiomInfo :=
  { meaning := "meaning B", history := "history B", examples := ["example B"] }

/-- A one-language configuration as in spec scenario examples. -/
def demoConfig : AppConfig := [("English", ["Bite the bullet"])]

/-- A logged-in post-config-load state of the App.tsx component. -/
def readyState : AppSt :=
  { initialState with
    config := some demoConfig
    language := "English"
    currentUser := some "u1" }

/-- C1 counterexample trace: selectItem(A) then selectItem(B) overlap; B's
fetch resolves first, A's stale fetch resolves second and its result is
applied unconditionally, so the view ends with A's detail under B's
heading. -/
theorem stalePrimary_overwrite_cex :
    (let s1 := (startFetch (some "A") "English" readyState).1
     let s2 := (startFetch (some "B") "English" s1).1
     let s3 := (resolvePrimarySuccess (some "B") "English" infoBeta s2).1
     let s4 := (resolvePrimarySuccess (some "A") "English" infoAlpha s3).1
     s4.currentIdiom = some "B" ∧ s4.idiomInfo = some infoAlpha ∧
     s4.idiomInfo ≠ some infoBeta) := by
  decide

/-- C3 counterexample: App.tsx fetchNewIdiom on a configured language with
an empty idiom slice does not fail with an EmptyCatalog error; it puts the
view into LOADING and issues a getIdiomInfo gateway call whose idiom
argument is undefined. -/
theorem fetchNewIdiom_emptySlice_fetchesUndefined_cex :
    (fetchNewIdiom 0 "English"
        { readyState with config := some [("English", [])] }).map
      (fun p => (p.1.appState, p.1.currentIdiom, p.2)) =
    some (AppState.LOADING, none, [Action.primaryFetch none "English"]) := by
  decide

/-- C7 counterexample: a 6-byte buffer with channelCount 2 violates the
divisibility precondition (6 is not a multiple of 2 * 2 = 4), yet
decodeAudioData succeeds, producing a one-frame buffer and silently
dropping the trailing partial frame; no ChannelMismatch failure exists. -/
theorem decodeAudioData_noChannelMismatch_cex :
    (6 % (2 * 2) = 2) ∧
    decodeAudioData [0, 0, 0, 0, 0, 0] 24000 2 =
      Except.ok { numberOfChannels := 2, frameCount := 1, sampleRate := 24000,
                  channels := [[0], [0]] } := by
  exact ⟨by decide,
    by norm_num [decodeAudioData, bytesToInt16, int16OfLE, List.range_succ]⟩

/-- C8: evaluating the audio machine on the failing trace.  Source 1 is
started and explicitly stopped; its ended event stays pending and, firing
after playback 2 has started, performs the full natural-completion
transition: isAudioPlaying is forced to false and the ref holding source
2 is nulled, indistinguishable from a natural end.  The explicit stop
suppresses nothing. -/
theorem explicitStop_endedStillFires :
    (let s1 := startPlayback 1 audioInit
     let s2 := stopClick s1
     let s3 := startPlayback 2 s2
     s2.isAudioPlaying = false ∧ s2.pendingEnded = [1] ∧
     s3.isAudioPlaying = true ∧ s3.audioSource = some 2 ∧
     endedFires 1 s3 =
       some { isAudioPlaying := false, audioSource := none, pendingEnded := [2] }) := by
  decide

/-- C1 amended: fetchIdiomDetails carries no request token, so every
primary resolution is applied unconditionally and the displayed detail is
that of whichever overlapping fetch resolves last, while currentIdiom
keeps the last issued item.  The view shows B's detail only when B's
fetch happens to resolve last. -/
theorem stalePrimary_lastResolutionWins (s0 : AppSt) (cfg : AppConfig)
    (h : s0.config = some cfg) (idA idB : String) (langA langB : Language)
    (iA iB : IdiomInfo) :
    (let s1 := (startFetch (some idA) langA s0).1
     let s2 := (startFetch (some idB) langB s1).1
     s2.currentIdiom = some idB ∧
     ((resolvePrimarySuccess (some idA) langA iA
        (resolvePrimarySuccess (some idB) langB iB s2).1).1).idiomInfo = some iA ∧
     ((resolvePrimarySuccess (some idB) langB iB
        (resolvePrimarySuccess (some idA) langA iA s2).1).1).idiomInfo = some iB) := by
  simp [startFetch, resolvePrimarySuccess, resetRelatedState, h]

/-- C1 amended, witness at a concrete overlapping pair. -/
theorem stalePrimary_lastResolutionWins_witness :
    (let s1 := (startFetch (some "A") "English" readyState).1
     let s2 := (startFetch (some "B") "English" s1).1
     s2.currentIdiom = some "B" ∧
     ((resolvePrimarySuccess (some "A") "English" infoAlpha
        (resolvePrimarySuccess (some "B") "English" infoBeta s2).1).1).idiomInfo
       = some infoAlpha ∧
     ((resolvePrimarySuccess (some "B") "English" infoBeta
        (resolvePrimarySuccess (some "A") "English" infoAlpha s2).1).1).idiomInfo
       = some infoBeta) :=
  stalePrimary_lastResolutionWins readyState demoConfig rfl "A" "B"
    "English" "English" infoAlpha infoBeta

/-- C4: when the primary detail fetch succeeds and the background
cross-language fetch then fails, the failure is swallowed: the map
degrades to the empty map, the view stays in the SUCCESS (Detail) state
with the primary info intact, and no error message is produced. -/
theorem crossLanguageFailure_swallowed (s0 : AppSt) (cfg : AppConfig)
    (h : s0.config = some cfg) (idiom : String) (lang : Language)
    (info : IdiomInfo) :
    (let s1 := (startFetch (some idiom) lang s0).1
     let s2 := (resolvePrimarySuccess (some idiom) lang info s1).1
     let s3 := resolveCrossFailure s2
     s2.appState = AppState.SUCCESS ∧
     s3.appState = AppState.SUCCESS ∧
     s3.crossLanguageIdioms = some [] ∧
     s3.errorMessage = none ∧
     s3.idiomInfo = some info ∧
     s3.isCrossLangLoading = false) := by
  simp [startFetch, resolvePrimarySuccess, resolveCrossFailure, resetRelatedState, h]

/-- C4 witness at a concrete run. -/
theorem crossLanguageFailure_swallowed_witness :
    (let s1 := (startFetch (some "Bite the bullet") "English" readyState).1
     let s2 := (resolvePrimarySuccess (some "Bite the bullet") "English" sampleInfo s1).1
     let s3 := resolveCrossFailure s2
     s2.appState = AppState.SUCCESS ∧
     s3.appState = AppState.SUCCESS ∧
     s3.crossLanguageIdioms = some [] ∧
     s3.errorMessage = none ∧
     s3.idiomInfo = some sampleInfo ∧
     s3.isCrossLangLoading = false) :=
  crossLanguageFailure_swallowed readyState demoConfig rfl
    "Bite the bullet" "English" sampleInfo

/-- C5: the cross-language fetch is not issued by the prologue of
fetchIdiomDetails; it is issued by the primary-success continuation,
whose post-state already shows SUCCESS with the detail and the
cross-language loading flag raised; the later cross-language resolution
merges the map in while the state stays SUCCESS, never re-entering
LOADING. -/
theorem crossLanguageFetch_nonblocking_mergeOnly (s0 : AppSt)
    (cfg : AppConfig) (h : s0.config = some cfg) (idiom : String)
    (lang : Language) (info : IdiomInfo) (m : CrossLanguageIdioms) :
    (let st1 := startFetch (some idiom) lang s0
     let st2 := resolvePrimarySuccess (some idiom) lang info st1.1
     let s3 := resolveCrossSuccess m st2.1
     st1.2.all (fun a => !a.isCrossFetch) = true ∧
     st2.2 = [Action.crossFetch (some idiom) lang] ∧
     st2.1.appState = AppState.SUCCESS ∧
     st2.1.idiomInfo = some info ∧
     st2.1.isCrossLangLoading = true ∧
     s3.appState = AppState.SUCCESS ∧
     s3.idiomInfo = some info ∧
     s3.crossLanguageIdioms = some m ∧
     s3.isCrossLangLoading = false) := by
  cases hsrc : s0.audioSource <;>
    simp [startFetch, resolvePrimarySuccess, resolveCrossSuccess,
      resetRelatedState, Action.isCrossFetch, h, hsrc]

/-- C5 witness at a concrete run. -/
theorem crossLanguageFetch_nonblocking_mergeOnly_witness :
    (let st1 := startFetch (some "Bite the bullet") "English" readyState
     let st2 := resolvePrimarySuccess (some "Bite the bullet") "English" sampleInfo st1.1
     let s3 := resolveCrossSuccess [("Hindi", "equivalent")] st2.1
     st1.2.all (fun a => !a.isCrossFetch) = true ∧
     st2.2 = [Action.crossFetch (some "Bite the bullet") "English"] ∧
     st2.1.appState = AppState.SUCCESS ∧
     st2.1.idiomInfo = some sampleInfo ∧
     st2.1.isCrossLangLoading = true ∧
     s3.appState = AppState.SUCCESS ∧
     s3.idiomInfo = some sampleInfo ∧
     s3.crossLanguageIdioms = some [("Hindi", "equivalent")] ∧
     s3.isCrossLangLoading = false) :=
  crossLanguageFetch_nonblocking_mergeOnly readyState demoConfig rfl
    "Bite the bullet" "English" sampleInfo [("Hindi", "equivalent")]

/-- C2: with the detail view populated, a non-favorited current item and
a favorites list already holding 50 entries, handleToggleFavorite only
sets the capacity toast and issues no external call: no audio fetch, no
backend write, no change to the list (hence no localStorage rewrite and
no eviction); the list length stays exactly 50. -/
theorem toggleFavorite_capacityRejected (audioRes backendRes : Option String)
    (now : Nat) (s : AppSt) (cur : String) (info : IdiomInfo)
    (hc : s.currentIdiom = some cur) (hi : s.idiomInfo = some info)
    (hnf : s.favorites.any (fun f => f.idiom == cur && f.language == s.language) = false)
    (hlen : s.favorites.length = 50) :
    handleToggleFavorite audioRes backendRes now s =
      ({ s with toastMessage := some capacityToast }, []) ∧
    (handleToggleFavorite audioRes backendRes now s).1.favorites = s.favorites ∧
    (handleToggleFavorite audioRes backendRes now s).1.favorites.length = 50 := by
  have hmain : handleToggleFavorite audioRes backendRes now s =
      ({ s with toastMessage := some capacityToast }, []) := by
    simp [handleToggleFavorite, hc, hi, hnf, hlen]
  exact ⟨hmain, by rw [hmain], by rw [hmain]; exact hlen⟩

/-- A favorite used by concrete instantiations. -/
def favDemo : Favorite :=
  { idiom := "a", language := "English", info := sampleInfo
    audioData := none, savedAt := 0 }

/-- A detail-view state whose favorites list is full (50 copies of a
favorite distinct from the current item). -/
def fullState : AppSt :=
  { readyState with
    currentIdiom := some "b"
    idiomInfo := some sampleInfo
    favorites := List.replicate 50 favDemo }

/-- C2 witness at a concrete full list. -/
theorem toggleFavorite_capacityRejected_witness :
    handleToggleFavorite none none 0 fullState =
      ({ fullState with toastMessage := some capacityToast }, []) ∧
    (handleToggleFavorite none none 0 fullState).1.favorites = fullState.favorites ∧
    (handleToggleFavorite none none 0 fullState).1.favorites.length = 50 :=
  toggleFavorite_capacityRejected none none 0 fullState "b" sampleInfo
    rfl rfl (by decide) (by decide)

/-- C3 amended: in the part_000 variant, fetchNewItem outside the
favorites branch guards the empty catalog slice: it records the error
message, changes nothing else, and issues no gateway call. -/
theorem fetchNewItem_emptySlice_guard (r1 r2 : Nat) (s : P0St)
    (hv : s.viewMode = P0ViewMode.All)
    (hempty : p0SliceFor s s.currentLanguage = []) :
    fetchNewItem r1 r2 s =
      ({ s with error := some ("No " ++ s.learningMode.str ++ " available for "
          ++ s.currentLanguage ++ ".") }, []) := by
  have hnotfav : ¬(s.viewMode = P0ViewMode.Favorites ∧ s.favorites.length > 0) := by
    rw [hv]; rintro ⟨hcontra, _⟩; cases hcontra
  simp [fetchNewItem, hnotfav, hempty]

/-- A part_000 state whose words slice for the current language is empty. -/
def p0Demo : P0St :=
  { appState := P0AppState.idle
    error := none
    languageConfig := [("English", (["Bite the bullet"], []))]
    learningMode := LMode.words
    currentItem := none
    currentLanguage := "English"
    currentPhrase := ""
    favorites := []
    viewMode := P0ViewMode.All
    relatedItems := none
    crossLanguageItems := none
    isPlaying := false
    audioSource := none }

/-- C3 amended, witness at a concrete empty words slice. -/
theorem fetchNewItem_emptySlice_guard_witness :
    fetchNewItem 0 0 p0Demo =
      ({ p0Demo with error := some ("No " ++ p0Demo.learningMode.str
          ++ " available for " ++ p0Demo.currentLanguage ++ ".") }, []) :=
  fetchNewItem_emptySlice_guard 0 0 p0Demo rfl (by decide)

/-- C10: the persistence effect skips the write whenever the in-memory
favorites list is empty.  Removing the sole favorite through
handleToggleFavorite empties the in-memory list, and the subsequent
effect run leaves the durable store untouched; by contrast, in the
pre-removal state (one favorite) the effect writes the list under the
per-user key. -/
theorem favoritesPersistence_skipsEmpty (u : String) (s : AppSt)
    (store : LocalStore) (audioRes backendRes : Option String) (now : Nat)
    (fav : Favorite)
    (hu : s.currentUser = some u)
    (hc : s.currentIdiom = some fav.idiom)
    (hi : s.idiomInfo.isSome = true)
    (hl : s.language = fav.language)
    (hf : s.favorites = [fav]) :
    (let s1 := (handleToggleFavorite audioRes backendRes now s).1
     s1.favorites = [] ∧
     s1.currentUser = some u ∧
     persistFavoritesEffect s1 store = store ∧
     storeGet (persistFavoritesEffect s store) (storageKey u) = some [fav]) := by
  obtain ⟨info, hinfo⟩ := Option.isSome_iff_exists.mp hi
  have hone : (handleToggleFavorite audioRes backendRes now s).1.favorites = [] ∧
      (handleToggleFavorite audioRes backendRes now s).1.currentUser = some u := by
    simp only [handleToggleFavorite, hc, hinfo]
    simp [hf, hl]
    split <;> simp [hu]
  refine ⟨hone.1, hone.2, ?_, ?_⟩
  · simp [persistFavoritesEffect, hone.1, hone.2]
  · simp [persistFavoritesEffect, hu, hf, storeGet, storeWrite, List.lookup]

/-- A detail-view state holding exactly one favorite, which is the item
currently displayed. -/
def singleFavState : AppSt :=
  { readyState with
    currentIdiom := some "a"
    idiomInfo := some sampleInfo
    favorites := [favDemo] }

/-- C10 witness: removing the sole favorite leaves the durable store
holding the old one-element list. -/
theorem favoritesPersistence_skipsEmpty_witness :
    (let s1 := (handleToggleFavorite none none 0 singleFavState).1
     s1.favorites = [] ∧
     s1.currentUser = some "u1" ∧
     persistFavoritesEffect s1 [(storageKey "u1", [favDemo])] =
       [(storageKey "u1", [favDemo])] ∧
     storeGet (persistFavoritesEffect singleFavState [(storageKey "u1", [favDemo])])
       (storageKey "u1") = some [favDemo]) :=
  favoritesPersistence_skipsEmpty "u1" singleFavState
    [(storageKey "u1", [favDemo])] none none 0 favDemo rfl rfl rfl rfl rfl

/-- C9: on a well-typed gateway response (every match carries a string
idiom), the kept results are exactly those whose language lies in the
configured set, computed by List.filter, hence an order-preserving
subsequence of the gateway's matches with no re-sort; unsupported
languages are dropped silently. -/
theorem performIdiomSearch_filter_order (ms : List RawSearchMatch)
    (valid : List Language)
    (hwt : ∀ m ∈ ms, m.idiom.isSome = true) :
    performIdiomSearchFilter ms valid = ms.filter (languageSupported valid) ∧
    List.Sublist (performIdiomSearchFilter ms valid) ms := by
  constructor
  · unfold performIdiomSearchFilter
    refine List.filter_congr ?_
    intro m hm
    unfold matchIsValid languageSupported
    rw [hwt m hm]
    simp
  · exact List.filter_sublist _

/-- A gateway response containing a supported and an unsupported
language, as in the spec's Klingon scenario. -/
def searchDemoMatches : List RawSearchMatch :=
  [{ idiom := some "a walk in the park", language := some "English" },
   { idiom := some "qep", language := some "Klingon" }]

/-- C9 witness: the Klingon entry is dropped, the English entry kept in
place. -/
theorem performIdiomSearch_filter_order_witness :
    (performIdiomSearchFilter searchDemoMatches ["English", "French", "Hindi"] =
       searchDemoMatches.filter (languageSupported ["English", "French", "Hindi"]) ∧
     List.Sublist
       (performIdiomSearchFilter searchDemoMatches ["English", "French", "Hindi"])
       searchDemoMatches) ∧
    performIdiomSearchFilter searchDemoMatches ["English", "French", "Hindi"] =
      [{ idiom := some "a walk in the park", language := some "English" }] :=
  ⟨performIdiomSearch_filter_order searchDemoMatches
      ["English", "French", "Hindi"] (by decide),
   by decide⟩

/-- Bounds of a single little-endian signed 16-bit value. -/
theorem int16OfLE_bounds (lo hi : Nat) :
    -32768 ≤ int16OfLE lo hi ∧ int16OfLE lo hi ≤ 32767 := by
  have h1 : lo % 256 < 256 := Nat.mod_lt _ (by norm_num)
  have h2 : hi % 256 < 256 := Nat.mod_lt _ (by norm_num)
  simp only [int16OfLE]
  split <;> omega

/-- Every entry read from the Int16Array view (0 outside the range) lies
in the signed 16-bit range. -/
theorem bytesToInt16_getD_bounds : ∀ (data : List Nat) (k : Nat),
    -32768 ≤ (bytesToInt16 data).getD k 0 ∧ (bytesToInt16 data).getD k 0 ≤ 32767
  | [], _ => by simp [bytesToInt16]
  | [_], _ => by simp [bytesToInt16]
  | lo :: hi :: rest, 0 => by
    simpa [bytesToInt16] using int16OfLE_bounds lo hi
  | lo :: hi :: rest, (k + 1) => by
    simpa [bytesToInt16] using bytesToInt16_getD_bounds rest k

/-- C6: whenever decodeAudioData produces a buffer, the sample of channel
c at frame i is the signed 16-bit little-endian value at interleaved
index i * channelCount + c divided by 32768, and every sample lies in
the range -1 to 1. -/
theorem decodeAudioData_pcm_postcondition (data : List Nat) (rate ch : Nat)
    (buf : PCMBuffer) (h : decodeAudioData data rate ch = Except.ok buf)
    (c i : Nat) (hc : c < buf.numberOfChannels) (hi : i < buf.frameCount) :
    buf.sampleAt c i =
      (((bytesToInt16 data).getD (i * ch + c) 0 : Int) : ℚ) / 32768 ∧
    -1 ≤ buf.sampleAt c i ∧ buf.sampleAt c i ≤ 1 := by
  simp only [decodeAudioData] at h
  split at h
  · exact absurd h (by simp)
  split at h
  · exact absurd h (by simp)
  obtain rfl := Except.ok.inj h
  simp only at hc hi
  have hs : PCMBuffer.sampleAt
      { numberOfChannels := ch
        frameCount := (bytesToInt16 data).length / ch
        sampleRate := rate
        channels := (List.range ch).map (fun channel =>
          (List.range ((bytesToInt16 data).length / ch)).map (fun j =>
            (((bytesToInt16 data).getD (j * ch + channel) 0 : Int) : ℚ) / 32768)) }
      c i =
      (((bytesToInt16 data).getD (i * ch + c) 0 : Int) : ℚ) / 32768 := by
    simp only [PCMBuffer.sampleAt, List.getD_eq_getElem?_getD, List.getElem?_map,
      List.getElem?_range hc, Option.map_some', Option.getD_some,
      List.getElem?_range hi]
  refine ⟨hs, ?_, ?_⟩
  · rw [hs, le_div_iff₀ (by norm_num : (0 : ℚ) < 32768)]
    have hb := (bytesToInt16_getD_bounds data (i * ch + c)).1
    have hcast : (-32768 : ℚ) ≤
        (((bytesToInt16 data).getD (i * ch + c) 0 : Int) : ℚ) := by
      exact_mod_cast hb
    linarith
  · rw [hs, div_le_one (by norm_num : (0 : ℚ) < 32768)]
    have hb := (bytesToInt16_getD_bounds data (i * ch + c)).2
    have hcast : (((bytesToInt16 data).getD (i * ch + c) 0 : Int) : ℚ) ≤
        (32767 : ℚ) := by
      exact_mod_cast hb
    linarith

/-- The concrete two-frame mono buffer decoded from the extreme 16-bit
samples -32768 and 32767. -/
def pcmDemo : PCMBuffer :=
  { numberOfChannels := 1
    frameCount := 2
    sampleRate := 24000
    channels := [[-1, 32767 / 32768]] }

/-- C6 witness at the extreme samples: bytes 0x8000 and 0x7FFF decode to
-1 and 32767 / 32768, both within range. -/
theorem decodeAudioData_pcm_postcondition_witness :
    pcmDemo.sampleAt 0 0 =
      (((bytesToInt16 [0, 128, 255, 127]).getD (0 * 1 + 0) 0 : Int) : ℚ) / 32768 ∧
    -1 ≤ pcmDemo.sampleAt 0 0 ∧ pcmDemo.sampleAt 0 0 ≤ 1 :=
  decodeAudioData_pcm_postcondition [0, 128, 255, 127] 24000 1 pcmDemo
    (by norm_num [decodeAudioData, bytesToInt16, int16OfLE, List.range_succ, pcmDemo])
    0 0 (by norm_num [pcmDemo]) (by norm_num [pcmDemo])

/-- C7 amended: decodeAudioData has no ChannelMismatch check at all; it
fails only via the Int16Array RangeError on an odd byte length or via
createBuffer's NotSupportedError on an out-of-nominal-range argument
(channel count outside 1 to 32, fewer than one full frame, sample rate
outside 8000 to 96000); divisibility of the byte length by
channelCount * 2 plays no role, a partial trailing frame being silently
dropped. -/
theorem decodeAudioData_ok_iff (data : List Nat) (rate ch : Nat) :
    isOkE (decodeAudioData data rate ch) = true ↔
      (data.length % 2 = 0 ∧ 0 < ch ∧ ch ≤ 32 ∧ ch ≤ (bytesToInt16 data).length ∧
       8000 ≤ rate ∧ rate ≤ 96000) := by
  simp only [decodeAudioData]
  split_ifs with h1 h2
  · simp only [isOkE]
    constructor
    · intro hcontra; cases hcontra
    · rintro ⟨ha, -, -, -, -, -⟩; exact absurd ha h1
  · simp only [isOkE]
    constructor
    · intro hcontra; cases hcontra
    · rintro ⟨-, hb, hc32, hcle, hr1, hr2⟩
      rcases h2 with hz | hgt | hdiv | hlo | hhi
      · omega
      · omega
      · have hlt := (Nat.div_eq_zero_iff hb).mp hdiv
        omega
      · omega
      · omega
  · simp only [isOkE, true_iff]
    push_neg at h2
    obtain ⟨hz, hgt, hdiv, hlo, hhi⟩ := h2
    refine ⟨by omega, by omega, by omega, ?_, by omega, by omega⟩
    by_contra hnot
    exact hdiv (Nat.div_eq_of_lt (by omega))

end FiguroAI
